import Mathlib

/-!
Verification of the evaluation/comparison pipeline core of the
adult-learning-coach backend (FastAPI + SQLAlchemy service code under
`backend/app/services/`).

The development shallowly embeds the pipeline orchestrators
(`evaluation.py`, `comparison_pipeline.py`), the report parser
(`analysis.py`) and the comparison metrics aggregator
(`comparison_analysis.py`) as executable Lean functions, and proves the
specification's claims about them.

Modelling conventions:
* Python floats are modelled as exact rationals (`ℚ`); the float literals
  `1.05` / `0.95` become `21/20` / `19/20`.  `round(x, 1)` is modelled as
  round-half-to-even at one decimal, which is Python's behaviour on the
  decimally-representable values involved.
* Python regular-expression scans are implemented as direct character-list
  scanners that follow the `re` module's leftmost / lazy / greedy and
  backtracking semantics for the concrete patterns appearing in the source.
* Database entities are records; `SELECT ... WHERE id = x` with
  `scalar_one_or_none()` is `List.find?`; the `ORDER BY display_order`
  query is a sort by `display_order`.  Statuses are strings, as in the
  source.  `db.commit()` on the happy persistence gateway of the spec is
  total; each commit of the evaluation pipeline is recorded in a trace so
  that the sequence of statuses a concurrent reader can observe is a
  first-class object.
* The two external gateways (transcription, text generation) are oracles:
  an environment record supplies either a successful response or a raised
  exception (`Except String`), exactly the two outcomes the source's
  `try/except` blocks distinguish.
-/

/-- Value stored in a JSON metrics column: number, string, or boolean. -/
inductive MVal where
  | num (q : ℚ)
  | str (s : String)
  | boolv (b : Bool)
deriving DecidableEq, Repr

/-- A JSON object of metrics, as an association list (insertion order kept,
keys unique in all states the code constructs). -/
abbrev Metrics := List (String × MVal)

/-- Numeric projection of a metrics value. -/
def MVal.toNum : MVal → Option ℚ
  | .num q => some q
  | _ => none

/-! ### Character-level scanning utilities (model of the `re` patterns) -/

/-- Python `\s` on the ASCII range: space, tab, newline, CR, VT, FF. -/
def isSpaceC (c : Char) : Bool :=
  c = ' ' || c = '\t' || c = '\n' || c = '\r' || c = Char.ofNat 11 || c = Char.ofNat 12

/-- Python `\d` on the ASCII range. -/
def isDigitC (c : Char) : Bool := '0' ≤ c && c ≤ '9'

/-- Test whether `pat` is a prefix of `cs`. -/
def listStartsWith : List Char → List Char → Bool
  | [], _ => true
  | _ :: _, [] => false
  | p :: ps, c :: cs => p = c && listStartsWith ps cs

/-- Numeric value of a digit list (most significant first). -/
def digitsVal (ds : List Char) : ℕ :=
  ds.foldl (fun a c => a * 10 + (c.toNat - '0'.toNat)) 0

/-- Match `\d+(?:\.\d+)?` at the head of `cs`.  The captured decimal text is
returned as a mantissa/exponent pair `(m, e)` (value `m / 10 ^ e`): the pure
scanning stays in `ℕ` so that the kernel can evaluate it; `decValue`
converts to the exact rational the source's `float(...)` produces. -/
def numberAfter (cs : List Char) : Option (ℕ × ℕ) :=
  let ds := cs.takeWhile isDigitC
  let rest := cs.drop ds.length
  if ds.isEmpty then none
  else
    match rest with
    | '.' :: rest2 =>
      let fs := rest2.takeWhile isDigitC
      if fs.isEmpty then some (digitsVal ds, 0)
      else some (digitsVal ds * 10 ^ fs.length + digitsVal fs, fs.length)
    | _ => some (digitsVal ds, 0)

/-- Rational value of a scanned decimal (`float` of the captured text). -/
def decValue (p : ℕ × ℕ) : ℚ := (p.1 : ℚ) / (10 : ℚ) ^ p.2

/-- Match `\s*(\d+(?:\.\d+)?)` at the head of `cs`: the greedy `\s*` run
followed by a number (the run cannot backtrack into a digit). -/
def afterBar (cs : List Char) : Option (ℕ × ℕ) :=
  numberAfter (cs.dropWhile isSpaceC)

/-- Model of the lazy `.*?\|\s*(\d+(?:\.\d+)?)` tail of the metric patterns
(no DOTALL, so `.*?` stays on the current line): try each `|` on the current
line from left to right, and accept the first whose continuation matches. -/
def tryBars : List Char → Option (ℕ × ℕ)
  | [] => none
  | c :: rest =>
    if c = '\n' then none
    else if c = '|' then
      match afterBar rest with
      | some q => some q
      | none => tryBars rest
    else tryBars rest

/-- Leftmost `re.search` for `LABEL.*?\|\s*(\d+(?:\.\d+)?)`: at each
occurrence of the literal label, try to complete the match on that line;
otherwise keep scanning to the right. -/
def scanLabel (label : List Char) : List Char → Option (ℕ × ℕ)
  | [] => none
  | c :: rest =>
    if listStartsWith label (c :: rest) then
      match tryBars (List.drop (label.length - 1) rest) with
      | some q => some q
      | none => scanLabel label rest
    else scanLabel label rest

/-- Search a report for one metric row, `re.search(LABEL + r'.*?\|\s*(\d+(?:\.\d+)?)', report)`. -/
def findMetric (label : String) (report : String) : Option ℚ :=
  (scanLabel label.data report.data).map decValue

/-- Model of `AnalysisService._extract_metrics` (`analysis.py`): scan the
report for the five known metric rows; a metric whose row is not found is
simply absent from the result.  The `Tangent` pattern's trailing `%?` sits
outside the capture group and never affects the captured number. -/
def addMetric (report k l : String) (acc : Metrics) : Metrics :=
  match findMetric l report with
  | some q => acc ++ [(k, MVal.num q)]
  | none => acc

/-- The five `if <label>_match:` blocks of `_extract_metrics`, in source
order. -/
def extract_metrics (report : String) : Metrics :=
  addMetric report "tangent_percentage" "Tangent"
    (addMetric report "questions_per_5min" "Questions"
      (addMetric report "filler_words_per_min" "Filler Words"
        (addMetric report "pauses_per_10min" "Strategic Pauses"
          (addMetric report "wpm" "Speaking Pace" []))))

/-! ### Section extraction (`_extract_sections` in both services) -/

/-- One extracted report item (`{"title", "text", "timestamp"}`).  The
comparison parser's dicts carry no `"timestamp"` key; that is modelled as
`timestamp = none`. -/
structure SectionItem where
  title : String
  text : String
  timestamp : Option String
deriving DecidableEq, Repr

/-- Python `str.strip()` on the modelled whitespace. -/
def stripStr (cs : List Char) : List Char :=
  ((cs.dropWhile isSpaceC).reverse.dropWhile isSpaceC).reverse

/-- Match `\s*\n` at the head of `cs` with a greedy, backtracking `\s*`:
succeeds iff the maximal whitespace run contains a newline, consuming
through the last newline of the run.  Returns the remainder. -/
def dropThruLastNl (cs : List Char) : Option (List Char) :=
  let run := cs.takeWhile isSpaceC
  let rest := cs.drop run.length
  if run.contains '\n' then
    some ((run.reverse.takeWhile (fun c => c ≠ '\n')).reverse ++ rest)
  else none

/-- Lazy capture `(.*?)(?=\n## |\Z)` (DOTALL): everything up to the first
`"\n## "` or the end of the text. -/
def captureUntilHdr : List Char → List Char
  | [] => []
  | c :: rest =>
    if listStartsWith ['\n', '#', '#', ' '] (c :: rest) then []
    else c :: captureUntilHdr rest

/-- Leftmost search for `## TITLE\s*\n(.*?)(?=\n## |\Z)`: the body of the
first matching section heading, if any. -/
def findSection (title : List Char) : List Char → Option (List Char)
  | [] => none
  | c :: rest =>
    let hd := ['#', '#', ' '] ++ title
    if listStartsWith hd (c :: rest) then
      match dropThruLastNl (List.drop hd.length (c :: rest)) with
      | some content => some (captureUntilHdr content)
      | none => findSection title rest
    else findSection title rest

/-- Zero-width lookahead `\n\s*(?:- )?\*\*` at the head of `cs`. -/
def itemEndHere (cs : List Char) : Bool :=
  match cs with
  | '\n' :: r =>
    let r2 := r.dropWhile isSpaceC
    listStartsWith ['*', '*'] r2 ||
      (listStartsWith ['-', ' '] r2 && listStartsWith ['*', '*'] (r2.drop 2))
  | _ => false

/-- Lazy capture `(.*?)(?=\n\s*(?:- )?\*\*|\Z)` (DOTALL): returns the body
and the unconsumed remainder (the lookahead consumes nothing, so the next
`finditer` scan resumes at the boundary). -/
def captureItemBody : List Char → List Char × List Char
  | [] => ([], [])
  | c :: rest =>
    if itemEndHere (c :: rest) then ([], c :: rest)
    else
      let (b, r) := captureItemBody rest
      (c :: b, r)

/-- Continuation after the title's closing `**`: `\s*\n` then the body. -/
def afterTitleClose (cs : List Char) : Option (List Char × List Char) :=
  (dropThruLastNl cs).map captureItemBody

/-- Lazy `(.+?)\*\*...` scan: extend the (nonempty) title one character at a
time; at each step, if the next two characters are `**` and the rest of the
pattern matches there, stop (lazy); otherwise keep extending — which is
exactly the `re` backtracking that lets the title run past a `**` whose
continuation fails. -/
def tryTitle (acc : List Char) : List Char → Option (List Char × List Char × List Char)
  | [] => none
  | c :: rest =>
    let acc2 := acc ++ [c]
    if listStartsWith ['*', '*'] rest then
      match afterTitleClose (rest.drop 2) with
      | some (body, rem) => some (acc2, body, rem)
      | none => tryTitle acc2 rest
    else tryTitle acc2 rest

/-- The `re.finditer` loop for
`\*\*(.+?)\*\*\s*\n(.*?)(?=\n\s*(?:- )?\*\*|\Z)`: leftmost, non-overlapping
matches, each scan resuming at the end of the previous match.  `fuel`
bounds the recursion by the text length. -/
def scanItems (fuel : ℕ) (cs : List Char) : List (List Char × List Char) :=
  match fuel with
  | 0 => []
  | fuel + 1 =>
    match cs with
    | [] => []
    | c :: rest =>
      if listStartsWith ['*', '*'] (c :: rest) then
        match tryTitle [] rest.tail with
        | some (t, b, rem) => (t, b) :: scanItems fuel rem
        | none => scanItems fuel rest
      else scanItems fuel rest

/-- Search `\[(\d{2}:\d{2}:\d{2})\]` in a body, returning the captured
`HH:MM:SS` text of the leftmost match. -/
def findTimestamp : List Char → Option String
  | [] => none
  | c :: rest =>
    match c :: rest with
    | '[' :: a :: b :: ':' :: d :: e :: ':' :: f :: g :: ']' :: _ =>
      if isDigitC a && isDigitC b && isDigitC d && isDigitC e && isDigitC f && isDigitC g then
        some (String.mk [a, b, ':', d, e, ':', f, g])
      else findTimestamp rest
    | _ => findTimestamp rest

/-- Shared body of both `_extract_sections` implementations: locate the
section, then run the item scan, returning stripped raw (title, body)
pairs. -/
def rawSectionItems (report section_title : String) : List (List Char × List Char) :=
  match findSection section_title.data report.data with
  | none => []
  | some sect => scanItems (sect.length + 1) sect

/-- Model of `AnalysisService._extract_sections` (`analysis.py`): items of a
`##` section, each with stripped title, body capped at 500 characters, and
an optional `[HH:MM:SS]` timestamp lifted from the stripped body. -/
def AnalysisService.extract_sections (report section_title : String) : List SectionItem :=
  (rawSectionItems report section_title).map fun (t, b) =>
    let t2 := stripStr t
    let b2 := stripStr b
    { title := String.mk t2
      text := String.mk (b2.take 500)
      timestamp := findTimestamp b2 }

/-- Model of `ComparisonAnalysisService._extract_sections`
(`comparison_analysis.py`): identical section/item scan, but the produced
dicts have only `"title"` and `"text"` — no timestamp is extracted. -/
def ComparisonAnalysisService.extract_sections (report section_title : String) :
    List SectionItem :=
  (rawSectionItems report section_title).map fun (t, b) =>
    let t2 := stripStr t
    let b2 := stripStr b
    { title := String.mk t2
      text := String.mk (b2.take 500)
      timestamp := none }

/-! ### Comparison metrics aggregation (`_extract_comparison_metrics`) -/

/-- One element of `evaluations_data`, as assembled by
`_load_evaluation_data` and consumed by `analyze_comparison`. -/
structure EvalUnit where
  label : String
  date : String
  instructor_name : String
  report_markdown : String
  metrics : Metrics
deriving DecidableEq, Repr

/-- Round half to even (banker's rounding, as Python's builtin `round`). -/
def roundHalfEven (x : ℚ) : ℤ :=
  let f := Int.floor x
  let r := x - (f : ℚ)
  if r < 1 / 2 then f
  else if 1 / 2 < r then f + 1
  else if 2 ∣ f then f else f + 1

/-- Python `round(x, 1)` on the exactly-representable values involved. -/
def pyRound1 (x : ℚ) : ℚ := (roundHalfEven (10 * x) : ℚ) / 10

/-- The five tracked coaching metric keys, in the order of the source. -/
def metricKeys : List String :=
  ["wpm", "pauses_per_10min", "filler_words_per_min",
   "questions_per_5min", "tangent_percentage"]

/-- The list-comprehension collecting `ev["metrics"][key]` over the
evaluations whose metrics dict is truthy (non-empty) and contains `key`,
in evaluation order.  (In every state the pipeline builds, the values
stored under the five keys are numbers.) -/
def metricValues (key : String) (evs : List EvalUnit) : List ℚ :=
  evs.filterMap fun ev =>
    if ev.metrics.isEmpty then none
    else (ev.metrics.lookup key).bind MVal.toNum

/-- Trend label: compare the mean of the first half of the ordered values
with the mean of the second half at a 5 % threshold (`1.05`/`0.95` exact). -/
def trendOf (values : List ℚ) : String :=
  let n := values.length
  let mid := n / 2
  let first_half := (values.take mid).sum / (mid : ℚ)
  let second_half := (values.drop mid).sum / ((n - mid : ℕ) : ℚ)
  if second_half > first_half * (21 / 20) then "increasing"
  else if second_half < first_half * (19 / 20) then "decreasing"
  else "stable"

/-- The entries one key contributes to the aggregate metrics dict. -/
def keyBlock (key : String) (evs : List EvalUnit) : Metrics :=
  let values := metricValues key evs
  if values.isEmpty then []
  else
    [(key ++ "_avg", MVal.num (pyRound1 (values.sum / (values.length : ℚ)))),
     (key ++ "_min", MVal.num (values.foldl min (values.headI))),
     (key ++ "_max", MVal.num (values.foldl max (values.headI)))] ++
    (if 2 ≤ values.length then [(key ++ "_trend", MVal.str (trendOf values))] else [])

/-- Model of `ComparisonAnalysisService._extract_comparison_metrics`
(`comparison_analysis.py`): `session_count` and `comparison_generated`
first, then per-key aggregates in key order.  The report argument is
ignored by the source as well. -/
def extract_comparison_metrics (_report : String) (evs : List EvalUnit) : Metrics :=
  [("session_count", MVal.num (evs.length : ℚ)),
   ("comparison_generated", MVal.boolv true)] ++
  metricKeys.flatMap (fun k => keyBlock k evs)

/-! ### The comparison analysis service (`analyze_comparison`) -/

/-- Structured result of `analyze_comparison` (the
`ComparisonAnalysisResult` dataclass). -/
structure ComparisonAnalysisResult where
  report_markdown : String
  metrics : Metrics
  strengths : List SectionItem
  growth_opportunities : List SectionItem
  input_tokens : ℕ
  output_tokens : ℕ
  processing_time_seconds : ℕ
  model : String
deriving DecidableEq, Repr

/-- Oracle for one call to the text-generation gateway: either the returned
markdown with token usage, or the raised exception's message. -/
structure ClaudeEnv where
  response : Except String (String × ℕ × ℕ)
  processing_time : ℕ

/-- The model identifier hard-coded in both services. -/
def claudeModelName : String := "claude-sonnet-4-20250514"

/-- A single-quote character, for rendering Python list reprs. -/
def quoteChar : String := String.mk [Char.ofNat 39]

/-- The `ValueError` message raised for an unrecognized comparison type
(`f"Unknown comparison type: {t}. Expected one of: {list(...keys())}"`). -/
def unknownTypeMsg (t : String) : String :=
  "Unknown comparison type: " ++ t ++ ". Expected one of: [" ++
    quoteChar ++ "personal_performance" ++ quoteChar ++ ", " ++
    quoteChar ++ "class_delivery" ++ quoteChar ++ ", " ++
    quoteChar ++ "program_evaluation" ++ quoteChar ++ "]"

/-- Keys of `COMPARISON_PROMPT_BUILDERS` (`prompts.py`). -/
def comparisonTypes : List String :=
  ["personal_performance", "class_delivery", "program_evaluation"]

/-- Strengths extraction with the comparison pipeline's fallback chain of
section titles. -/
def comparisonStrengths (report : String) : List SectionItem :=
  let s1 := ComparisonAnalysisService.extract_sections report "Cross-Session Strengths"
  if s1.isEmpty then
    let s2 := ComparisonAnalysisService.extract_sections report "Strengths Across the Program"
    if s2.isEmpty then
      ComparisonAnalysisService.extract_sections report "Best Practices to Share"
    else s2
  else s1

/-- Growth extraction with its fallback chain of section titles. -/
def comparisonGrowth (report : String) : List SectionItem :=
  let g1 := ComparisonAnalysisService.extract_sections report "Cross-Session Growth Opportunities"
  if g1.isEmpty then
    let g2 := ComparisonAnalysisService.extract_sections report "Areas for Improvement"
    if g2.isEmpty then
      ComparisonAnalysisService.extract_sections report "Common Delivery Gaps"
    else g2
  else g1

/-- Model of `ComparisonAnalysisService.analyze_comparison`: raises
`ValueError` (here `.error`) for an unknown comparison type before any
gateway call; otherwise the gateway response (or its exception) drives the
result.  The prompt text itself does not influence the modelled output. -/
def analyze_comparison (env : ClaudeEnv) (evaluations_data : List EvalUnit)
    (comparison_type : String) (_class_tag : Option String) :
    Except String ComparisonAnalysisResult :=
  if ¬ comparisonTypes.contains comparison_type then
    .error (unknownTypeMsg comparison_type)
  else
    match env.response with
    | .error e => .error e
    | .ok (text, in_tok, out_tok) =>
      .ok { report_markdown := text
            metrics := extract_comparison_metrics text evaluations_data
            strengths := comparisonStrengths text
            growth_opportunities := comparisonGrowth text
            input_tokens := in_tok
            output_tokens := out_tok
            processing_time_seconds := env.processing_time
            model := claudeModelName }

/-! ### Entities and database state

Fields are those the pipeline code reads or writes.  Ids are natural
numbers standing in for UUIDs (never zero-valued/falsy in the source);
`uploaded_at` timestamps are carried as pre-formatted `%Y-%m-%d` strings,
since the pipelines use them only through `strftime`. -/

/-- A `users` row, as read by the pipelines. -/
structure User where
  id : ℕ
  display_name : String
deriving DecidableEq, Repr

/-- A `videos` row, as read and written by the evaluation pipeline. -/
structure Video where
  id : ℕ
  filename : String
  s3_key : String
  uploaded_at : Option String
  duration_seconds : Option ℚ
  upload_status : String
deriving DecidableEq, Repr

/-- An `evaluations` row. -/
structure Evaluation where
  id : ℕ
  video_id : ℕ
  instructor_id : Option ℕ
  transcript_id : Option ℕ
  status : String
  report_markdown : Option String
  metrics : Option Metrics
  strengths : Option (List SectionItem)
  growth_opportunities : Option (List SectionItem)
  processing_started_at : Option ℕ
  processing_completed_at : Option ℕ
deriving DecidableEq, Repr

/-- A `comparisons` row. -/
structure Comparison where
  id : ℕ
  title : String
  comparison_type : String
  class_tag : Option String
  anonymize_instructors : Bool
  status : String
  report_markdown : Option String
  metrics : Option Metrics
  strengths : Option (List SectionItem)
  growth_opportunities : Option (List SectionItem)
  processing_started_at : Option ℕ
  processing_completed_at : Option ℕ
deriving DecidableEq, Repr

/-- A `comparison_evaluations` join row. -/
structure ComparisonEvaluation where
  comparison_id : ℕ
  evaluation_id : ℕ
  display_order : ℕ
  label : Option String
deriving DecidableEq, Repr

/-- A `transcripts` row, as created by the transcription stage. -/
structure Transcript where
  id : ℕ
  video_id : ℕ
  transcript_text : String
  word_count : ℕ
  speaker_count : ℕ
  processing_time_seconds : ℕ
  assemblyai_transcript_id : String
  status : String
deriving DecidableEq, Repr

/-- The tables the pipelines query. -/
structure Db where
  comparisons : List Comparison
  evaluations : List Evaluation
  users : List User
  videos : List Video
  links : List ComparisonEvaluation
deriving Repr

/-- Python truthiness of an optional string (`None` and `""` are falsy):
this is the test `not evaluation.report_markdown` performs. -/
def optStrFalsy : Option String → Bool
  | none => true
  | some s => s = ""

/-- Insert into a list sorted by `display_order` (model of the
`ORDER BY ComparisonEvaluation.display_order` query). -/
def insertByOrder (l : ComparisonEvaluation) :
    List ComparisonEvaluation → List ComparisonEvaluation
  | [] => [l]
  | x :: xs =>
    if l.display_order < x.display_order then l :: x :: xs
    else x :: insertByOrder l xs

/-- The ordered links of one comparison: filter by `comparison_id`, sort by
`display_order`. -/
def sortedLinks (db : Db) (c : Comparison) : List ComparisonEvaluation :=
  (db.links.filter (fun l => l.comparison_id = c.id)).foldr insertByOrder []

/-- The `scalar_one_or_none()` lookups. -/
def findEvaluation (db : Db) (eid : ℕ) : Option Evaluation :=
  db.evaluations.find? (fun e => e.id = eid)

/-- Lookup of a comparison row by id. -/
def findComparison (db : Db) (cid : ℕ) : Option Comparison :=
  db.comparisons.find? (fun c => c.id = cid)

/-- Lookup of a user row by id. -/
def findUser (db : Db) (uid : ℕ) : Option User :=
  db.users.find? (fun u => u.id = uid)

/-- Lookup of a video row by id. -/
def findVideo (db : Db) (vid : ℕ) : Option Video :=
  db.videos.find? (fun v => v.id = vid)

/-! ### The comparison pipeline (`comparison_pipeline.py`) -/

/-- Model of `_fail_comparison`: status `failed`, completion timestamp,
`metrics = {"error": message}`, commit. -/
def _fail_comparison (c : Comparison) (error_message : String) (now : ℕ) : Comparison :=
  { c with status := "failed"
           processing_completed_at := some now
           metrics := some [("error", MVal.str error_message)] }

/-- Validation/assembly outcome for one link: the failure message of the
first check that fires, if any (evaluation missing, not completed, falsy
report — in that order, as in the source). -/
def linkError (db : Db) (link : ComparisonEvaluation) : Option String :=
  match findEvaluation db link.evaluation_id with
  | none => some ("Linked evaluation " ++ toString link.evaluation_id ++ " not found")
  | some evaluation =>
    if evaluation.status ≠ "completed" then
      some ("Evaluation " ++ toString link.evaluation_id ++ " is not completed (status: "
        ++ evaluation.status ++ ")")
    else if optStrFalsy evaluation.report_markdown then
      some ("Evaluation " ++ toString link.evaluation_id ++ " has no report")
    else none

/-- Assemble the analysis unit for one validated link: label default,
session date from the video's upload timestamp, instructor lookup with the
anonymization substitution applied only when a user row was found. -/
def buildUnit (db : Db) (c : Comparison) (link : ComparisonEvaluation)
    (evaluation : Evaluation) : EvalUnit :=
  let instructor_name :=
    match evaluation.instructor_id with
    | none => "Unknown Instructor"
    | some uid =>
      match findUser db uid with
      | none => "Unknown Instructor"
      | some user =>
        if c.anonymize_instructors then
          "Instructor " ++ toString (link.display_order + 1)
        else user.display_name
  let session_date :=
    match findVideo db evaluation.video_id with
    | none => "Not specified"
    | some video =>
      match video.uploaded_at with
      | none => "Not specified"
      | some d => d
  { label := link.label.getD ("Session " ++ toString (link.display_order + 1))
    date := session_date
    instructor_name := instructor_name
    report_markdown := evaluation.report_markdown.getD ""
    metrics := evaluation.metrics.getD [] }

/-- The per-link loop of `_load_evaluation_data`: validate each link in
order, stopping at the first violation (`.error message`), otherwise
returning the assembled units in order. -/
def loadLoop (db : Db) (c : Comparison) :
    List ComparisonEvaluation → Except String (List EvalUnit)
  | [] => .ok []
  | link :: rest =>
    match findEvaluation db link.evaluation_id with
    | none => .error ("Linked evaluation " ++ toString link.evaluation_id ++ " not found")
    | some evaluation =>
      if evaluation.status ≠ "completed" then
        .error ("Evaluation " ++ toString link.evaluation_id ++ " is not completed (status: "
          ++ evaluation.status ++ ")")
      else if optStrFalsy evaluation.report_markdown then
        .error ("Evaluation " ++ toString link.evaluation_id ++ " has no report")
      else
        match loadLoop db c rest with
        | .error msg => .error msg
        | .ok us => .ok (buildUnit db c link evaluation :: us)

/-- Model of `_load_evaluation_data`: link-count check, then the validation
and assembly loop; on failure the comparison is marked failed and `none` is
returned. -/
def _load_evaluation_data (db : Db) (c : Comparison) (now : ℕ) :
    Comparison × Option (List EvalUnit) :=
  let links := sortedLinks db c
  if links.length < 2 then
    (_fail_comparison c
      ("Comparison requires at least 2 evaluations, found " ++ toString links.length) now,
     none)
  else
    match loadLoop db c links with
    | .error msg => (_fail_comparison c msg now, none)
    | .ok us => (c, some us)

/-- Model of `_run_comparison_analysis`: run the (thread-pooled) service
call; on success persist report, themes and merged metrics; on exception
mark the comparison failed with an `Analysis failed:` message.  The last
component records whether the text-generation gateway was actually invoked
(the unknown-type `ValueError` is raised before any gateway call). -/
def _run_comparison_analysis (env : ClaudeEnv) (c : Comparison)
    (evaluations_data : List EvalUnit) (now : ℕ) : Comparison × Bool × Bool :=
  match analyze_comparison env evaluations_data c.comparison_type c.class_tag with
  | .error e =>
    (_fail_comparison c ("Analysis failed: " ++ e) now, false,
     comparisonTypes.contains c.comparison_type)
  | .ok result =>
    ({ c with
        report_markdown := some result.report_markdown
        strengths := some result.strengths
        growth_opportunities := some result.growth_opportunities
        metrics := some (result.metrics ++
          [("analysis_input_tokens", MVal.num (result.input_tokens : ℚ)),
           ("analysis_output_tokens", MVal.num (result.output_tokens : ℚ)),
           ("analysis_processing_seconds", MVal.num (result.processing_time_seconds : ℚ)),
           ("analysis_model", MVal.str result.model)]) },
     true, true)

/-- Final persisted state of one `run_comparison_pipeline` invocation:
the comparison row (absent when the id was unknown and the run aborted
silently) and whether the text-generation gateway was invoked. -/
structure CompOutcome where
  comparison : Option Comparison
  gatewayCalled : Bool
deriving Repr

/-- Model of `run_comparison_pipeline` (`comparison_pipeline.py`): load,
validate, transition to `analyzing`, analyze, transition to `completed`;
every failure path ends in `_fail_comparison`, never in a propagated
exception. -/
def run_comparison_pipeline (env : ClaudeEnv) (db : Db) (comparison_id : ℕ)
    (now : ℕ) : CompOutcome :=
  match findComparison db comparison_id with
  | none => ⟨none, false⟩
  | some comparison =>
    match _load_evaluation_data db comparison now with
    | (c2, none) => ⟨some c2, false⟩
    | (_, some evaluations_data) =>
      let c3 := { comparison with status := "analyzing", processing_started_at := some now }
      match _run_comparison_analysis env c3 evaluations_data now with
      | (c4, false, called) => ⟨some c4, called⟩
      | (c4, true, called) =>
        ⟨some { c4 with status := "completed", processing_completed_at := some now }, called⟩

/-! ### The evaluation pipeline (`evaluation.py`, `analysis.py`,
`transcription.py`) -/

/-- Output of the transcription gateway wrapper
(`TranscriptionService.transcribe_local_file`). -/
structure TranscriptionResult where
  transcript_text : String
  word_count : ℕ
  speaker_count : ℕ
  processing_time_seconds : ℕ
  assemblyai_id : String
  duration_seconds : Option ℚ
deriving DecidableEq, Repr

/-- Structured result of `AnalysisService.analyze` (the `AnalysisResult`
dataclass). -/
structure AnalysisResult where
  report_markdown : String
  metrics : Metrics
  strengths : List SectionItem
  growth_opportunities : List SectionItem
  input_tokens : ℕ
  output_tokens : ℕ
  processing_time_seconds : ℕ
  model : String
deriving DecidableEq, Repr

/-- Model of `AnalysisService.analyze`: the gateway response (or its
exception) drives the result; on success the report parser extracts the
metrics and the two theme sections. -/
def AnalysisService.analyze (env : ClaudeEnv) (_transcript : String)
    (_instructor_name : String) : Except String AnalysisResult :=
  match env.response with
  | .error e => .error e
  | .ok (text, in_tok, out_tok) =>
    .ok { report_markdown := text
          metrics := extract_metrics text
          strengths := AnalysisService.extract_sections text "Strengths to Build On"
          growth_opportunities := AnalysisService.extract_sections text "Growth Opportunities"
          input_tokens := in_tok
          output_tokens := out_tok
          processing_time_seconds := env.processing_time
          model := claudeModelName }

/-- Environment of one `run_evaluation_pipeline` invocation: the outcome of
the transcription stage's external calls (storage resolution + AssemblyAI;
both raise into the same `except` handler), the text-generation gateway
oracle, the id the database assigns to the new transcript row, and the
clock. -/
structure EvalEnv where
  transcription : Except String TranscriptionResult
  claude : ClaudeEnv
  new_transcript_id : ℕ
  now : ℕ

/-- Model of `_fail_evaluation`: status `failed`, completion timestamp,
`metrics = {"error": message}`; committed by the caller's commit point.
It never raises (total function). -/
def _fail_evaluation (evaluation : Evaluation) (error_message : String)
    (now : ℕ) : Evaluation :=
  { evaluation with
      status := "failed"
      processing_completed_at := some now
      metrics := some [("error", MVal.str error_message)] }

/-- Observable result of one `run_evaluation_pipeline` invocation: the
final persisted rows, the persisted status after each `commit()` (what a
concurrent reader can observe, in order), and the sequence of in-memory
status assignments the run performed. -/
structure EvalOutcome where
  evaluation : Option Evaluation
  video : Option Video
  transcript : Option Transcript
  commits : List String
  writes : List String
deriving Repr

/-- Model of `run_evaluation_pipeline` (`evaluation.py`): load evaluation
and video, transcribe, analyze, complete; each stage failure is caught and
turned into `_fail_evaluation` + commit, so the pipeline never propagates
an exception — over every oracle, the function returns an outcome. -/
def run_evaluation_pipeline (env : EvalEnv) (db : Db) (evaluation_id : ℕ) :
    EvalOutcome :=
  match findEvaluation db evaluation_id with
  | none => ⟨none, none, none, [], []⟩
  | some evaluation =>
    match findVideo db evaluation.video_id with
    | none =>
      let ev2 := _fail_evaluation evaluation "Video not found" env.now
      ⟨some ev2, none, none, ["failed"], ["failed"]⟩
    | some video =>
      let ev3 := { evaluation with
                     status := "transcribing"
                     processing_started_at := some env.now }
      -- commit #1; then stage 1 (`_run_transcription`)
      match env.transcription with
      | .error e =>
        let ev4 := _fail_evaluation ev3 ("Transcription failed: " ++ e) env.now
        ⟨some ev4, some video, none, ["transcribing", "failed"],
         ["transcribing", "failed"]⟩
      | .ok result =>
        let transcript : Transcript :=
          { id := env.new_transcript_id
            video_id := video.id
            transcript_text := result.transcript_text
            word_count := result.word_count
            speaker_count := result.speaker_count
            processing_time_seconds := result.processing_time_seconds
            assemblyai_transcript_id := result.assemblyai_id
            status := "completed" }
        let video2 := { video with
                          duration_seconds := result.duration_seconds
                          upload_status := "transcribed" }
        let ev4 := { ev3 with transcript_id := some transcript.id }
        -- commit #2 (status unchanged); then stage 2 (`_run_analysis`)
        let ev5 := { ev4 with status := "analyzing" }
        -- commit #3
        let instructor_name :=
          match ev5.instructor_id with
          | none => "the instructor"
          | some uid =>
            match findUser db uid with
            | none => "the instructor"
            | some user => user.display_name
        match AnalysisService.analyze env.claude result.transcript_text instructor_name with
        | .error e =>
          let ev6 := _fail_evaluation ev5 ("Analysis failed: " ++ e) env.now
          ⟨some ev6, some video2, some transcript,
           ["transcribing", "transcribing", "analyzing", "failed"],
           ["transcribing", "analyzing", "failed"]⟩
        | .ok result2 =>
          let ev6 := { ev5 with
                         report_markdown := some result2.report_markdown
                         strengths := some result2.strengths
                         growth_opportunities := some result2.growth_opportunities
                         metrics := some (result2.metrics ++
                           [("analysis_input_tokens", MVal.num (result2.input_tokens : ℚ)),
                            ("analysis_output_tokens", MVal.num (result2.output_tokens : ℚ)),
                            ("analysis_processing_seconds",
                              MVal.num (result2.processing_time_seconds : ℚ)),
                            ("analysis_model", MVal.str result2.model)]) }
          -- commit #4; then the completion transition and commit #5
          let ev7 := { ev6 with
                         status := "completed"
                         processing_completed_at := some env.now }
          ⟨some ev7, some video2, some transcript,
           ["transcribing", "transcribing", "analyzing", "analyzing", "completed"],
           ["transcribing", "analyzing", "completed"]⟩

/-! ### Concrete fixtures used by witnesses and counterexamples -/

/-- A completed evaluation row with a report, for comparison fixtures. -/
def doneEval (i : ℕ) (iid : Option ℕ) (m : Option Metrics) : Evaluation :=
  { id := i, video_id := 100 + i, instructor_id := iid, transcript_id := none
    status := "completed", report_markdown := some "## R\nbody\n", metrics := m
    strengths := none, growth_opportunities := none
    processing_started_at := none, processing_completed_at := none }

/-- Fixture comparison: anonymization on, `personal_performance`. -/
def cFix : Comparison :=
  { id := 1, title := "Q1", comparison_type := "personal_performance"
    class_tag := none, anonymize_instructors := true, status := "queued"
    report_markdown := none, metrics := none, strengths := none
    growth_opportunities := none, processing_started_at := none
    processing_completed_at := none }

/-- Fixture database: evaluation 10 has a null instructor id, evaluation 11
has instructor 7 (present), evaluation 12 has instructor 8 (no such user). -/
def dbFix : Db :=
  { comparisons := [cFix]
    evaluations :=
      [doneEval 10 none (some [("wpm", MVal.num (285 / 2))]),
       doneEval 11 (some 7) (some [("wpm", MVal.num 155)]),
       doneEval 12 (some 8) none]
    users := [⟨7, "Jane Smith"⟩]
    videos := [⟨110, "a.mp4", "k1", some "2024-01-05", none, "uploaded"⟩]
    links := [⟨1, 11, 1, none⟩, ⟨1, 10, 0, none⟩, ⟨1, 12, 2, some "Lab"⟩] }

/-- Fixture comparison with an unknown type and otherwise valid data. -/
def cBogus : Comparison := { cFix with id := 2, comparison_type := "something_else" }

/-- Fixture database for the unknown-comparison-type runs. -/
def dbBogus : Db :=
  { dbFix with comparisons := [cBogus]
               links := [⟨2, 10, 0, none⟩, ⟨2, 11, 1, none⟩] }

/-- Fixture queued evaluation for the evaluation-pipeline runs. -/
def evQueued : Evaluation :=
  { id := 10, video_id := 110, instructor_id := some 7, transcript_id := none
    status := "queued", report_markdown := none, metrics := none
    strengths := none, growth_opportunities := none
    processing_started_at := none, processing_completed_at := none }

/-- Fixture database for the evaluation pipeline. -/
def dbEval : Db := { dbFix with evaluations := [evQueued] }

/-- Fixture environment: both gateways succeed. -/
def envOk : EvalEnv :=
  { transcription := .ok ⟨"[00:00:00] Speaker A: hello", 1, 1, 3, "aid", some 60⟩
    claude := ⟨.ok ("## Strengths to Build On\n**A**\nbody [00:01:02]\n", 7, 8), 4⟩
    new_transcript_id := 500
    now := 99 }

/-- Fixture environment: transcription raises. -/
def envTransFail : EvalEnv := { envOk with transcription := .error "codec error" }

/-! ### Status state machine predicates (spec §4.3 / claim C6) -/

/-- One legal forward step of the Evaluation status machine,
`queued → transcribing → analyzing → completed`. -/
def forwardStep (a b : String) : Prop :=
  (a = "queued" ∧ b = "transcribing") ∨ (a = "transcribing" ∧ b = "analyzing") ∨
    (a = "analyzing" ∧ b = "completed")

/-- A legal status write: one forward step, or entering terminal `failed`
from any state. -/
def writeStep (a b : String) : Prop := b = "failed" ∨ forwardStep a b

/-- What a reader may observe across two consecutive commits: the same
status (a commit that wrote no status), or a legal status write. -/
def readerStep (a b : String) : Prop := a = b ∨ writeStep a b

instance : DecidableRel forwardStep := fun a b =>
  inferInstanceAs (Decidable ((a = "queued" ∧ b = "transcribing") ∨
    (a = "transcribing" ∧ b = "analyzing") ∨ (a = "analyzing" ∧ b = "completed")))

instance : DecidableRel writeStep := fun a b =>
  inferInstanceAs (Decidable (b = "failed" ∨ forwardStep a b))

instance : DecidableRel readerStep := fun a b =>
  inferInstanceAs (Decidable (a = b ∨ writeStep a b))

/-- Report fixture whose metrics table has only the Speaking Pace row. -/
def reportWithPace : String :=
  "## Metrics Snapshot\n\n| Metric | Value |\n|--------|-------|\n| Speaking Pace | 145.0 |\n"

/-- The same table with the Speaking Pace row removed (another row kept). -/
def reportNoPace : String :=
  "## Metrics Snapshot\n\n| Metric | Value |\n|--------|-------|\n| Filler Words | 2.1 |\n"

/-- Report fixture with a percent-suffixed tangent row. -/
def reportTangent : String :=
  "| Tangent Time | 12.5% |\n"

/-- Occurrence of `pat` as a substring (at any position). -/
def containsSub (pat : List Char) : List Char → Bool
  | [] => listStartsWith pat []
  | c :: rest => listStartsWith pat (c :: rest) || containsSub pat rest

/-- Report fixture with a strengths section (two bold items, the first with
a bracketed timestamp) followed by another `##` section. -/
def reportFix : String :=
  "# Report\n\n## Strengths to Build On\n\n**Clear Explanations**\nYou explained concepts well at [00:01:02] and later.\n\n- **Engagement**\nAsked many questions.\n\n## Growth Opportunities\n\n**Pacing**\nSlow down a bit.\n"

/-- Comparison-report fixture with a timestamped item. -/
def reportComp : String :=
  "## Cross-Session Strengths\n\n**Pacing Improved**\nClear gains at [00:05:10] across sessions.\n"

/-- Whether an evaluation's instructor can be resolved to a user row. -/
def resolvesInstructor (db : Db) (e : Evaluation) : Bool :=
  match e.instructor_id with
  | none => false
  | some uid => (findUser db uid).isSome

/-- The (amended) anonymization contract for one assembled unit: with
anonymization on, a unit gets `"Instructor {display_order+1}"` exactly when
the linked evaluation's instructor id is non-null and resolves to a user;
otherwise its instructor name is the `"Unknown Instructor"` default. -/
def anonymizedNameOk (db : Db) (link : ComparisonEvaluation) (u : EvalUnit) : Prop :=
  ∀ e, findEvaluation db link.evaluation_id = some e →
    (resolvesInstructor db e = true →
      u.instructor_name = "Instructor " ++ toString (link.display_order + 1)) ∧
    (resolvesInstructor db e = false → u.instructor_name = "Unknown Instructor")

/-- The units `_load_evaluation_data` assembles from `dbFix` (display
order 0, 1, 2): null instructor id, resolvable instructor, dangling
instructor id. -/
def usFix : List EvalUnit :=
  [⟨"Session 1", "2024-01-05", "Unknown Instructor", "## R\nbody\n",
    [("wpm", MVal.num (285 / 2))]⟩,
   ⟨"Session 2", "Not specified", "Instructor 2", "## R\nbody\n",
    [("wpm", MVal.num 155)]⟩,
   ⟨"Lab", "Not specified", "Unknown Instructor", "## R\nbody\n", []⟩]

/-- Fixture gateway oracle with a successful response. -/
def envC2 : ClaudeEnv := ⟨.ok ("report", 1, 2), 0⟩

/-- The units assembled from `dbBogus` (evaluations 10 and 11). -/
def usBogus : List EvalUnit :=
  [⟨"Session 1", "2024-01-05", "Unknown Instructor", "## R\nbody\n",
    [("wpm", MVal.num (285 / 2))]⟩,
   ⟨"Session 2", "Not specified", "Instructor 2", "## R\nbody\n",
    [("wpm", MVal.num 155)]⟩]

/-- Fixture comparison for validation-failure runs. -/
def cBad : Comparison := { cFix with id := 3, anonymize_instructors := false }

/-- Fixture database whose second link (display order 1) references a
missing evaluation. -/
def dbBad : Db :=
  { dbFix with comparisons := [cBad]
               links := [⟨3, 10, 0, none⟩, ⟨3, 99, 1, none⟩] }

/-- The violating link of `dbBad`. -/
def linkBad : ComparisonEvaluation := ⟨3, 99, 1, none⟩

/-- Mean of the first half of the ordered values (`values[:mid]`). -/
def firstHalfMean (vs : List ℚ) : ℚ :=
  (vs.take (vs.length / 2)).sum / ((vs.length / 2 : ℕ) : ℚ)

/-- Mean of the second half of the ordered values (`values[mid:]`). -/
def secondHalfMean (vs : List ℚ) : ℚ :=
  (vs.drop (vs.length / 2)).sum / ((vs.length - vs.length / 2 : ℕ) : ℚ)

/-- The spec's first trend example: wpm values 142.5 and 155.0. -/
def evsInc : List EvalUnit :=
  [⟨"s1", "d", "i", "r", [("wpm", MVal.num (285 / 2))]⟩,
   ⟨"s2", "d", "i", "r", [("wpm", MVal.num 155)]⟩]

/-- The spec's second trend example: wpm values 150.0 and 151.0. -/
def evsStable : List EvalUnit :=
  [⟨"s1", "d", "i", "r", [("wpm", MVal.num 150)]⟩,
   ⟨"s2", "d", "i", "r", [("wpm", MVal.num 151)]⟩]

/-! ### Helper lemmas -/

theorem lookup_append (k : String) (l1 l2 : Metrics) :
    (l1 ++ l2).lookup k = ((l1.lookup k).or (l2.lookup k)) := by
  induction l1 with
  | nil => simp [List.lookup]
  | cons p t ih =>
    cases p with
    | mk k2 v =>
      by_cases h : (k == k2) = true
      · simp [List.lookup, h]
      · simp only [Bool.not_eq_true] at h
        simp [List.lookup, h, ih]

theorem lookup_eq_none_of_forall (k : String) (l : Metrics)
    (h : ∀ p ∈ l, (k == p.1) = false) : l.lookup k = none := by
  induction l with
  | nil => simp [List.lookup]
  | cons p t ih =>
    have h1 := h p (by simp)
    have h2 : List.lookup k t = none := ih fun q hq => h q (List.mem_cons_of_mem _ hq)
    simp [List.lookup, h1, h2]

theorem keyBlock_keys (k : String) (evs : List EvalUnit) :
    ∀ p ∈ keyBlock k evs,
      p.1 = k ++ "_avg" ∨ p.1 = k ++ "_min" ∨ p.1 = k ++ "_max" ∨ p.1 = k ++ "_trend" := by
  intro p hp
  simp only [keyBlock] at hp
  split at hp
  · simp at hp
  · rcases List.mem_append.mp hp with h | h
    · simp only [List.mem_cons, List.not_mem_nil, or_false] at h
      rcases h with h | h | h <;> simp [h]
    · split at h
      · simp only [List.mem_cons, List.not_mem_nil, or_false] at h
        simp [h]
      · simp at h

/-- C7: the internal fail handler is idempotent up to the last-written
message: applied twice in sequence (with any messages and clock values) it
leaves status `failed` and `metrics = {"error": <second message>}`.  It is
a total function, so it never raises. -/
theorem C7_fail_handler_idempotent (evaluation : Evaluation) (m1 m2 : String)
    (n1 n2 : ℕ) :
    (_fail_evaluation (_fail_evaluation evaluation m1 n1) m2 n2).status = "failed" ∧
    (_fail_evaluation (_fail_evaluation evaluation m1 n1) m2 n2).metrics =
      some [("error", MVal.str m2)] :=
  ⟨rfl, rfl⟩

/-- C3: for every evaluation id that resolves to an existing row,
`run_evaluation_pipeline` produces an outcome (it is a total function over
every gateway oracle, including the ones that raise — the embedded
`try/except` structure never lets an exception propagate), and the
persisted status it leaves is exactly `completed` or `failed`. -/
theorem C3_run_evaluation_terminal (env : EvalEnv) (db : Db) (evaluation_id : ℕ)
    (ev : Evaluation) (h : findEvaluation db evaluation_id = some ev) :
    ∃ ev2, (run_evaluation_pipeline env db evaluation_id).evaluation = some ev2 ∧
      (ev2.status = "completed" ∨ ev2.status = "failed") := by
  simp only [run_evaluation_pipeline, h]
  split
  · exact ⟨_, rfl, Or.inr rfl⟩
  · split
    · exact ⟨_, rfl, Or.inr rfl⟩
    · split
      · exact ⟨_, rfl, Or.inr rfl⟩
      · exact ⟨_, rfl, Or.inl rfl⟩

/-- Witness for C3: a concrete run (both gateways succeed) on the fixture
database ends in a terminal status. -/
theorem C3_witness :
    ∃ ev2, (run_evaluation_pipeline envOk dbEval 10).evaluation = some ev2 ∧
      (ev2.status = "completed" ∨ ev2.status = "failed") :=
  C3_run_evaluation_terminal envOk dbEval 10 evQueued (by rfl)

/-- C6: starting from a `queued` evaluation, every status assignment the
pipeline performs (fail handler included) is a legal strictly-forward or
to-`failed` write, and the statuses persisted by its successive commits
form a monotone sequence in the reader relation. -/
theorem C6_status_monotonic (env : EvalEnv) (db : Db) (evaluation_id : ℕ)
    (ev : Evaluation) (h : findEvaluation db evaluation_id = some ev)
    (hq : ev.status = "queued") :
    List.Chain writeStep ev.status (run_evaluation_pipeline env db evaluation_id).writes ∧
    List.Chain readerStep ev.status (run_evaluation_pipeline env db evaluation_id).commits := by
  simp only [run_evaluation_pipeline, h, hq]
  split
  · exact ⟨by simp [List.chain_cons, writeStep, readerStep, forwardStep], by simp [List.chain_cons, writeStep, readerStep, forwardStep]⟩
  · split
    · exact ⟨by simp [List.chain_cons, writeStep, readerStep, forwardStep], by simp [List.chain_cons, writeStep, readerStep, forwardStep]⟩
    · split
      · exact ⟨by simp [List.chain_cons, writeStep, readerStep, forwardStep], by simp [List.chain_cons, writeStep, readerStep, forwardStep]⟩
      · exact ⟨by simp [List.chain_cons, writeStep, readerStep, forwardStep], by simp [List.chain_cons, writeStep, readerStep, forwardStep]⟩

/-- Witness for C6: the concrete transcription-failure run's writes and
commit trace are monotone. -/
theorem C6_witness :
    List.Chain writeStep evQueued.status
      (run_evaluation_pipeline envTransFail dbEval 10).writes ∧
    List.Chain readerStep evQueued.status
      (run_evaluation_pipeline envTransFail dbEval 10).commits :=
  C6_status_monotonic envTransFail dbEval 10 evQueued (by rfl) (by rfl)

/-! ### Claim C8 -/

theorem mem_addMetric {report k l : String} {acc : Metrics} {p : String × MVal}
    (hp : p ∈ addMetric report k l acc) : p ∈ acc ∨ p.1 = k := by
  unfold addMetric at hp
  split at hp
  · rcases List.mem_append.mp hp with h | h
    · exact Or.inl h
    · simp at h
      simp [h]
  · exact Or.inl hp

theorem addMetric_of_none {report k l : String} {acc : Metrics}
    (h : findMetric l report = none) : addMetric report k l acc = acc := by
  simp [addMetric, h]

/-- C8: `extract_metrics` maps the `| Speaking Pace | 145.0 |` row to
`{"wpm": 145.0}`; when the row is absent the `"wpm"` key is absent (no zero
or null placeholder), universally whenever the Speaking Pace scan fails;
values parse as decimals, and the tangent percentage is captured with the
trailing `%` stripped. -/
theorem C8_metric_extraction :
    extract_metrics reportWithPace = [("wpm", MVal.num 145)] ∧
    (extract_metrics reportNoPace).lookup "wpm" = none ∧
    (extract_metrics reportNoPace).lookup "filler_words_per_min" =
      some (MVal.num (21 / 10)) ∧
    (extract_metrics reportTangent).lookup "tangent_percentage" =
      some (MVal.num (25 / 2)) ∧
    (∀ report, findMetric "Speaking Pace" report = none →
      (extract_metrics report).lookup "wpm" = none) := by
  have hA1 : findMetric "Speaking Pace" reportWithPace = some (decValue (1450, 1)) := by
    unfold findMetric
    rw [show scanLabel "Speaking Pace".data reportWithPace.data = some (1450, 1) by decide]
    rfl
  have hA2 : findMetric "Strategic Pauses" reportWithPace = none := by
    unfold findMetric
    rw [show scanLabel "Strategic Pauses".data reportWithPace.data = none by decide]
    rfl
  have hA3 : findMetric "Filler Words" reportWithPace = none := by
    unfold findMetric
    rw [show scanLabel "Filler Words".data reportWithPace.data = none by decide]
    rfl
  have hA4 : findMetric "Questions" reportWithPace = none := by
    unfold findMetric
    rw [show scanLabel "Questions".data reportWithPace.data = none by decide]
    rfl
  have hA5 : findMetric "Tangent" reportWithPace = none := by
    unfold findMetric
    rw [show scanLabel "Tangent".data reportWithPace.data = none by decide]
    rfl
  have hB1 : findMetric "Speaking Pace" reportNoPace = none := by
    unfold findMetric
    rw [show scanLabel "Speaking Pace".data reportNoPace.data = none by decide]
    rfl
  have hB2 : findMetric "Strategic Pauses" reportNoPace = none := by
    unfold findMetric
    rw [show scanLabel "Strategic Pauses".data reportNoPace.data = none by decide]
    rfl
  have hB3 : findMetric "Filler Words" reportNoPace = some (decValue (21, 1)) := by
    unfold findMetric
    rw [show scanLabel "Filler Words".data reportNoPace.data = some (21, 1) by decide]
    rfl
  have hB4 : findMetric "Questions" reportNoPace = none := by
    unfold findMetric
    rw [show scanLabel "Questions".data reportNoPace.data = none by decide]
    rfl
  have hB5 : findMetric "Tangent" reportNoPace = none := by
    unfold findMetric
    rw [show scanLabel "Tangent".data reportNoPace.data = none by decide]
    rfl
  have hC1 : findMetric "Speaking Pace" reportTangent = none := by
    unfold findMetric
    rw [show scanLabel "Speaking Pace".data reportTangent.data = none by decide]
    rfl
  have hC2 : findMetric "Strategic Pauses" reportTangent = none := by
    unfold findMetric
    rw [show scanLabel "Strategic Pauses".data reportTangent.data = none by decide]
    rfl
  have hC3 : findMetric "Filler Words" reportTangent = none := by
    unfold findMetric
    rw [show scanLabel "Filler Words".data reportTangent.data = none by decide]
    rfl
  have hC4 : findMetric "Questions" reportTangent = none := by
    unfold findMetric
    rw [show scanLabel "Questions".data reportTangent.data = none by decide]
    rfl
  have hC5 : findMetric "Tangent" reportTangent = some (decValue (125, 1)) := by
    unfold findMetric
    rw [show scanLabel "Tangent".data reportTangent.data = some (125, 1) by decide]
    rfl
  refine ⟨?_, ?_, ?_, ?_, ?_⟩
  · simp only [extract_metrics, addMetric, hA1, hA2, hA3, hA4, hA5]
    norm_num [decValue]
  · simp [extract_metrics, addMetric, hB1, hB2, hB3, hB4, hB5, List.lookup]
  · simp only [extract_metrics, addMetric, hB1, hB2, hB3, hB4, hB5, List.nil_append]
    simp [List.lookup]
    norm_num [decValue]
  · simp only [extract_metrics, addMetric, hC1, hC2, hC3, hC4, hC5, List.nil_append]
    simp [List.lookup]
    norm_num [decValue]
  intro report h
  apply lookup_eq_none_of_forall
  intro p hp
  unfold extract_metrics at hp
  rcases mem_addMetric hp with hp | h1
  · rcases mem_addMetric hp with hp | h1
    · rcases mem_addMetric hp with hp | h1
      · rcases mem_addMetric hp with hp | h1
        · rw [addMetric_of_none h] at hp
          simp at hp
        · simp [h1]
      · simp [h1]
    · simp [h1]
  · simp [h1]

/-- Witness for C8: the universal clause applied to the concrete
Pace-free report. -/
theorem C8_witness : (extract_metrics reportNoPace).lookup "wpm" = none :=
  C8_metric_extraction.2.2.2.2 reportNoPace (by decide)

/-! ### Claim C9 -/

theorem findSection_eq_none {title cs : List Char}
    (h : containsSub (['#', '#', ' '] ++ title) cs = false) :
    findSection title cs = none := by
  induction cs with
  | nil => rfl
  | cons c rest ih =>
    unfold containsSub at h
    simp only [Bool.or_eq_false_iff] at h
    unfold findSection
    simp only [h.1, Bool.false_eq_true, if_false]
    exact ih h.2

/-- C9 counterexample: on a comparison report whose item body carries a
bracketed `[HH:MM:SS]` token, the comparison parser variant does not lift it
(its items have no timestamp), while the single-evaluation parser does —
refuting the claim that both variants extract timestamps. -/
theorem C9_counterexample :
    (ComparisonAnalysisService.extract_sections reportComp "Cross-Session Strengths").map
        SectionItem.timestamp = [none] ∧
    (AnalysisService.extract_sections reportComp "Cross-Session Strengths").map
        SectionItem.timestamp = [some "00:05:10"] := by
  constructor
  · decide
  · decide

/-- C9 (amended): both parsers locate the exact `##` section, capture until
the next `##` heading or end of text, split on bold sub-headings, truncate
each body to 500 characters, and return `[]` when the section title is
absent; the single-evaluation parser additionally lifts a bracketed
`[HH:MM:SS]` token as the item's optional timestamp, while the comparison
variant produces items with title and text only (no timestamp). -/
theorem C9_section_extraction :
    (AnalysisService.extract_sections reportFix "Strengths to Build On" =
      [⟨"Clear Explanations", "You explained concepts well at [00:01:02] and later.",
        some "00:01:02"⟩,
       ⟨"Engagement", "Asked many questions.", none⟩]) ∧
    (ComparisonAnalysisService.extract_sections reportFix "Strengths to Build On" =
      [⟨"Clear Explanations", "You explained concepts well at [00:01:02] and later.", none⟩,
       ⟨"Engagement", "Asked many questions.", none⟩]) ∧
    (∀ report section_title,
      containsSub (['#', '#', ' '] ++ section_title.data) report.data = false →
      AnalysisService.extract_sections report section_title = [] ∧
      ComparisonAnalysisService.extract_sections report section_title = []) ∧
    (∀ report section_title i, i ∈ AnalysisService.extract_sections report section_title →
      i.text.length ≤ 500) ∧
    (∀ report section_title i,
      i ∈ ComparisonAnalysisService.extract_sections report section_title →
      i.text.length ≤ 500 ∧ i.timestamp = none) ∧
    (∀ report section_title,
      (AnalysisService.extract_sections report section_title).map (fun i => (i.title, i.text)) =
        (ComparisonAnalysisService.extract_sections report section_title).map
          (fun i => (i.title, i.text))) := by
  refine ⟨by decide, by decide, ?_, ?_, ?_, ?_⟩
  · intro report section_title h
    constructor
    · simp [AnalysisService.extract_sections, rawSectionItems, findSection_eq_none h]
    · simp [ComparisonAnalysisService.extract_sections, rawSectionItems, findSection_eq_none h]
  · intro report section_title i hi
    simp only [AnalysisService.extract_sections, List.mem_map] at hi
    obtain ⟨p, _, rfl⟩ := hi
    simp [String.length, List.length_take]
  · intro report section_title i hi
    simp only [ComparisonAnalysisService.extract_sections, List.mem_map] at hi
    obtain ⟨p, _, rfl⟩ := hi
    refine ⟨?_, rfl⟩
    simp [String.length, List.length_take]
  · intro report section_title
    simp [AnalysisService.extract_sections, ComparisonAnalysisService.extract_sections,
      List.map_map]

/-- Witness for C9: the absent-title clause applied to a concrete report
without the section. -/
theorem C9_witness :
    AnalysisService.extract_sections reportNoPace "Strengths to Build On" = [] ∧
    ComparisonAnalysisService.extract_sections reportNoPace "Strengths to Build On" = [] :=
  C9_section_extraction.2.2.1 reportNoPace "Strengths to Build On" (by decide)

/-! ### Claim C1 -/

/-- C1 counterexample: on `dbFix` (anonymize_instructors set) the unit whose
evaluation has a null instructor id — and likewise the one whose instructor
lookup finds no user — is assembled with instructor_name
`"Unknown Instructor"`, not `"Instructor {display_order+1}"`: the
substitution only happens inside the `if user:` branch of the lookup. -/
theorem C1_counterexample :
    cFix.anonymize_instructors = true ∧
    (_load_evaluation_data dbFix cFix 0).2.map (List.map EvalUnit.instructor_name) =
      some ["Unknown Instructor", "Instructor 2", "Unknown Instructor"] ∧
    "Unknown Instructor" ≠ "Instructor " ++ toString (0 + 1) := by
  refine ⟨rfl, ?_, by decide⟩
  rfl

theorem loadLoop_ok_forall {db : Db} {c : Comparison}
    (ha : c.anonymize_instructors = true) :
    ∀ links us, loadLoop db c links = .ok us →
      List.Forall₂ (anonymizedNameOk db) links us := by
  intro links
  induction links with
  | nil =>
    intro us h
    unfold loadLoop at h
    cases h
    exact List.Forall₂.nil
  | cons link rest ih =>
    intro us h
    unfold loadLoop at h
    split at h
    · cases h
    · rename_i e he
      split at h
      · cases h
      · split at h
        · cases h
        · split at h
          · cases h
          · rename_i us2 hr
            cases h
            refine List.Forall₂.cons ?_ (ih us2 hr)
            intro e2 he2
            rw [he] at he2
            cases he2
            constructor
            · intro hres
              unfold resolvesInstructor at hres
              cases hid : e.instructor_id with
              | none => simp [hid] at hres
              | some uid =>
                simp only [hid] at hres
                cases hu : findUser db uid with
                | none => simp [hu] at hres
                | some user => simp [buildUnit, hid, hu, ha]
            · intro hres
              unfold resolvesInstructor at hres
              cases hid : e.instructor_id with
              | none => simp [buildUnit, hid]
              | some uid =>
                simp only [hid] at hres
                cases hu : findUser db uid with
                | none => simp [buildUnit, hid, hu]
                | some user => simp [hu] at hres

/-- C1 (amended): with `anonymize_instructors` set, every unit assembled by
the data-assembly step carries `"Instructor {display_order+1}"` exactly when
its evaluation's instructor id is non-null and the user lookup succeeds, and
the `"Unknown Instructor"` default otherwise — pointwise along the links in
display order. -/
theorem C1_anonymization (db : Db) (c : Comparison) (now : ℕ) (us : List EvalUnit)
    (ha : c.anonymize_instructors = true)
    (h : (_load_evaluation_data db c now).2 = some us) :
    List.Forall₂ (anonymizedNameOk db) (sortedLinks db c) us := by
  simp only [_load_evaluation_data] at h
  split at h
  · simp at h
  · cases hl : loadLoop db c (sortedLinks db c) with
    | error msg => rw [hl] at h; simp at h
    | ok us2 =>
      rw [hl] at h
      simp only [Option.some.injEq] at h
      cases h
      exact loadLoop_ok_forall ha _ _ hl

/-- Witness for C1: the amended contract holds on the concrete fixture run
(three links exercising all three instructor-resolution cases). -/
theorem C1_witness :
    List.Forall₂ (anonymizedNameOk dbFix) (sortedLinks dbFix cFix) usFix :=
  C1_anonymization dbFix cFix 0 usFix rfl rfl

/-! ### Claim C2 -/

/-- C2 counterexample: invoked on a comparison whose type is unknown (with
otherwise valid links), `run_comparison_pipeline` does NOT propagate an
exception to its caller — it catches the service's `ValueError` and
transitions the comparison to `failed` with an `Analysis failed:` message,
never invoking the text-generation gateway. -/
theorem C2_counterexample :
    (run_comparison_pipeline envC2 dbBogus 2 5).comparison.map Comparison.status =
      some "failed" ∧
    (run_comparison_pipeline envC2 dbBogus 2 5).comparison.map Comparison.metrics =
      some (some [("error", MVal.str
        ("Analysis failed: " ++ unknownTypeMsg "something_else"))]) ∧
    (run_comparison_pipeline envC2 dbBogus 2 5).gatewayCalled = false := by
  refine ⟨by decide, by decide, by decide⟩

/-- C2 (amended): for an unknown comparison_type the analysis service
raises `ValueError` (before any gateway call), and the pipeline catches it:
`run_comparison_pipeline` transitions the comparison to `failed` with the
message `"Analysis failed: Unknown comparison type: ..."` and never
propagates the exception or invokes the text-generation gateway. -/
theorem C2_unknown_type (env : ClaudeEnv) (db : Db) (cid now : ℕ) (c : Comparison)
    (us : List EvalUnit)
    (hc : findComparison db cid = some c)
    (ht : comparisonTypes.contains c.comparison_type = false)
    (hl : (_load_evaluation_data db c now).2 = some us) :
    analyze_comparison env us c.comparison_type c.class_tag =
      .error (unknownTypeMsg c.comparison_type) ∧
    ∃ c2, (run_comparison_pipeline env db cid now).comparison = some c2 ∧
      c2.status = "failed" ∧
      c2.metrics = some [("error",
        MVal.str ("Analysis failed: " ++ unknownTypeMsg c.comparison_type))] ∧
      (run_comparison_pipeline env db cid now).gatewayCalled = false := by
  have hnm : c.comparison_type ∉ comparisonTypes := by simpa using ht
  have hserv : ∀ tag, analyze_comparison env us c.comparison_type tag =
      .error (unknownTypeMsg c.comparison_type) := by
    intro tag
    simp [analyze_comparison, hnm]
  refine ⟨hserv c.class_tag, ?_⟩
  cases hld : _load_evaluation_data db c now with
  | mk c1 o =>
    rw [hld] at hl
    simp only at hl
    subst hl
    simp only [run_comparison_pipeline, hc, hld, _run_comparison_analysis]
    rw [show ({ c with status := "analyzing", processing_started_at := some now} :
      Comparison).comparison_type = c.comparison_type from rfl] at *
    simp only [hserv]
    exact ⟨_, rfl, rfl, rfl, by simp [hnm]⟩

/-- Witness for C2: the amended behaviour on the concrete unknown-type
fixture run. -/
theorem C2_witness :
    analyze_comparison envC2 usBogus cBogus.comparison_type cBogus.class_tag =
      .error (unknownTypeMsg cBogus.comparison_type) ∧
    ∃ c2, (run_comparison_pipeline envC2 dbBogus 2 5).comparison = some c2 ∧
      c2.status = "failed" ∧
      c2.metrics = some [("error",
        MVal.str ("Analysis failed: " ++ unknownTypeMsg cBogus.comparison_type))] ∧
      (run_comparison_pipeline envC2 dbBogus 2 5).gatewayCalled = false :=
  C2_unknown_type envC2 dbBogus 2 5 cBogus usBogus rfl (by decide) rfl

/-! ### Claim C4 -/

theorem loadLoop_cons_error {db : Db} {c : Comparison} {link : ComparisonEvaluation}
    {rest : List ComparisonEvaluation} {msg : String}
    (h : linkError db link = some msg) :
    loadLoop db c (link :: rest) = .error msg := by
  unfold linkError at h
  split at h
  · rename_i he
    cases h
    simp [loadLoop, he]
  · rename_i e he
    split_ifs at h with h1 h2 <;> cases h <;> simp [loadLoop, he, *]

theorem loadLoop_cons_propagates {db : Db} {c : Comparison}
    {link : ComparisonEvaluation} {rest : List ComparisonEvaluation} {msg : String}
    (h : linkError db link = none) (hr : loadLoop db c rest = .error msg) :
    loadLoop db c (link :: rest) = .error msg := by
  unfold linkError at h
  split at h
  · cases h
  · rename_i e he
    split_ifs at h with h1 h2
    simp [loadLoop, he, h1, h2, hr]

theorem loadLoop_first_violation {db : Db} {c : Comparison} :
    ∀ links (l : ComparisonEvaluation) (msg : String),
      links.find? (fun x => (linkError db x).isSome) = some l →
      linkError db l = some msg →
      loadLoop db c links = .error msg := by
  intro links
  induction links with
  | nil => intro l msg h _; simp [List.find?] at h
  | cons link rest ih =>
    intro l msg hf hm
    cases hv : linkError db link with
    | some m =>
      rw [List.find?_cons_of_pos _ (by simp [hv])] at hf
      cases hf
      exact loadLoop_cons_error hm
    | none =>
      rw [List.find?_cons_of_neg _ (by simp [hv])] at hf
      exact loadLoop_cons_propagates hv (ih l msg hf hm)

/-- C4: with the comparison loaded, (i) fewer than 2 links makes the run
end `failed` with the count message and no gateway call; (ii) with at least
2 links, if some link violates validation then the run ends `failed`
carrying the message of the FIRST violating link in display order (the
evaluation-missing / not-completed / no-report message of `linkError`,
naming the offending evaluation id), again without a gateway call. -/
theorem C4_validation_gate (env : ClaudeEnv) (db : Db) (cid now : ℕ) (c : Comparison)
    (hc : findComparison db cid = some c) :
    ((sortedLinks db c).length < 2 →
      ∃ c2, (run_comparison_pipeline env db cid now).comparison = some c2 ∧
        c2.status = "failed" ∧
        c2.metrics = some [("error", MVal.str
          ("Comparison requires at least 2 evaluations, found " ++
            toString (sortedLinks db c).length))] ∧
        (run_comparison_pipeline env db cid now).gatewayCalled = false) ∧
    (2 ≤ (sortedLinks db c).length →
      ∀ l msg, (sortedLinks db c).find? (fun x => (linkError db x).isSome) = some l →
        linkError db l = some msg →
        ∃ c2, (run_comparison_pipeline env db cid now).comparison = some c2 ∧
          c2.status = "failed" ∧ c2.metrics = some [("error", MVal.str msg)] ∧
          (run_comparison_pipeline env db cid now).gatewayCalled = false) := by
  constructor
  · intro hlen
    have hld : _load_evaluation_data db c now =
        (_fail_comparison c
          ("Comparison requires at least 2 evaluations, found " ++
            toString (sortedLinks db c).length) now, none) := by
      simp only [_load_evaluation_data]
      rw [if_pos hlen]
    simp only [run_comparison_pipeline, hc, hld]
    exact ⟨_, rfl, rfl, rfl, trivial⟩
  · intro hlen l msg hf hm
    have herr := loadLoop_first_violation (c := c) (sortedLinks db c) l msg hf hm
    have hld : _load_evaluation_data db c now = (_fail_comparison c msg now, none) := by
      simp only [_load_evaluation_data]
      rw [if_neg (by omega), herr]
    simp only [run_comparison_pipeline, hc, hld]
    exact ⟨_, rfl, rfl, rfl, trivial⟩

/-- Witness for C4: the concrete run on `dbBad` (second link references the
missing evaluation 99) fails with the naming message and no gateway call. -/
theorem C4_witness :
    ∃ c2, (run_comparison_pipeline envC2 dbBad 3 7).comparison = some c2 ∧
      c2.status = "failed" ∧
      c2.metrics = some [("error", MVal.str "Linked evaluation 99 not found")] ∧
      (run_comparison_pipeline envC2 dbBad 3 7).gatewayCalled = false :=
  (C4_validation_gate envC2 dbBad 3 7 cBad rfl).2 (by decide) linkBad
    "Linked evaluation 99 not found" (by decide) (by decide)

/-! ### Claim C10 -/

theorem usage_key_not_in_aggregate (k : String)
    (hk : ∀ kk ∈ metricKeys,
      k ≠ kk ++ "_avg" ∧ k ≠ kk ++ "_min" ∧ k ≠ kk ++ "_max" ∧ k ≠ kk ++ "_trend")
    (hb1 : (k == "session_count") = false)
    (hb2 : (k == "comparison_generated") = false)
    (r : String) (evs : List EvalUnit) :
    (extract_comparison_metrics r evs).lookup k = none := by
  unfold extract_comparison_metrics
  rw [lookup_append]
  have h1 : (([("session_count", MVal.num (evs.length : ℚ)),
      ("comparison_generated", MVal.boolv true)] : Metrics).lookup k) = none := by
    simp [List.lookup, hb1, hb2]
  have h2 : ((metricKeys.flatMap fun kk => keyBlock kk evs).lookup k) = none := by
    apply lookup_eq_none_of_forall
    intro p hp
    simp only [List.mem_flatMap] at hp
    obtain ⟨kk, hkk, hpk⟩ := hp
    have hne := hk kk hkk
    rcases keyBlock_keys kk evs p hpk with h | h | h | h <;>
      simp [h, beq_eq_false_iff_ne, hne.1, hne.2.1, hne.2.2.1, hne.2.2.2]
  rw [h1, h2]
  rfl

/-- C10: every comparison run that reaches successful completion persists
metrics containing `session_count` (the number of assembled units) and
`comparison_generated = true`, plus the four analysis-usage keys, whether or
not any coaching metric was present in the inputs. -/
theorem C10_success_metrics (env : ClaudeEnv) (db : Db) (cid now : ℕ) (c : Comparison)
    (us : List EvalUnit) (text : String) (itok otok : ℕ)
    (hc : findComparison db cid = some c)
    (hl : (_load_evaluation_data db c now).2 = some us)
    (hty : comparisonTypes.contains c.comparison_type = true)
    (hres : env.response = .ok (text, itok, otok)) :
    ∃ c2, (run_comparison_pipeline env db cid now).comparison = some c2 ∧
      c2.status = "completed" ∧
      ∃ m, c2.metrics = some m ∧
        m.lookup "session_count" = some (MVal.num (us.length : ℚ)) ∧
        m.lookup "comparison_generated" = some (MVal.boolv true) ∧
        m.lookup "analysis_input_tokens" = some (MVal.num (itok : ℚ)) ∧
        m.lookup "analysis_output_tokens" = some (MVal.num (otok : ℚ)) ∧
        m.lookup "analysis_processing_seconds" =
          some (MVal.num (env.processing_time : ℚ)) ∧
        m.lookup "analysis_model" = some (MVal.str claudeModelName) := by
  have hmem : c.comparison_type ∈ comparisonTypes := by
    simpa using hty
  have hana : ∀ st pt, analyze_comparison env us
      ({ c with status := st, processing_started_at := pt } : Comparison).comparison_type
      ({ c with status := st, processing_started_at := pt } : Comparison).class_tag =
      .ok ⟨text, extract_comparison_metrics text us, comparisonStrengths text,
        comparisonGrowth text, itok, otok, env.processing_time, claudeModelName⟩ := by
    intro st pt
    simp [analyze_comparison, hmem, hres]
  cases hld : _load_evaluation_data db c now with
  | mk c1 o =>
    rw [hld] at hl
    simp only at hl
    subst hl
    simp only [run_comparison_pipeline, hc, hld, _run_comparison_analysis, hana]
    refine ⟨_, rfl, rfl, _, rfl, ?_, ?_, ?_, ?_, ?_, ?_⟩
    · rw [show (extract_comparison_metrics text us ++ _ : Metrics).lookup "session_count"
        = _ from lookup_append _ _ _]
      simp [extract_comparison_metrics, List.lookup]
    · rw [show (extract_comparison_metrics text us ++ _ : Metrics).lookup
        "comparison_generated" = _ from lookup_append _ _ _]
      simp [extract_comparison_metrics, List.lookup]
    · rw [lookup_append, usage_key_not_in_aggregate _ (by decide) (by decide) (by decide)]
      simp [List.lookup]
    · rw [lookup_append, usage_key_not_in_aggregate _ (by decide) (by decide) (by decide)]
      simp [List.lookup]
    · rw [lookup_append, usage_key_not_in_aggregate _ (by decide) (by decide) (by decide)]
      simp [List.lookup]
    · rw [lookup_append, usage_key_not_in_aggregate _ (by decide) (by decide) (by decide)]
      simp [List.lookup]

/-- Witness for C10: a concrete successful comparison run on the fixture
database carries all six mandatory metric keys. -/
theorem C10_witness :
    ∃ c2, (run_comparison_pipeline envC2 dbFix 1 9).comparison = some c2 ∧
      c2.status = "completed" ∧
      ∃ m, c2.metrics = some m ∧
        m.lookup "session_count" = some (MVal.num (usFix.length : ℚ)) ∧
        m.lookup "comparison_generated" = some (MVal.boolv true) ∧
        m.lookup "analysis_input_tokens" = some (MVal.num ((1 : ℕ) : ℚ)) ∧
        m.lookup "analysis_output_tokens" = some (MVal.num ((2 : ℕ) : ℚ)) ∧
        m.lookup "analysis_processing_seconds" =
          some (MVal.num (envC2.processing_time : ℚ)) ∧
        m.lookup "analysis_model" = some (MVal.str claudeModelName) :=
  C10_success_metrics envC2 dbFix 1 9 cFix usFix "report" 1 2 rfl rfl (by decide) rfl

/-! ### Claim C5 -/

theorem trendOf_eq (vs : List ℚ) :
    trendOf vs =
      if secondHalfMean vs > firstHalfMean vs * (21 / 20) then "increasing"
      else if secondHalfMean vs < firstHalfMean vs * (19 / 20) then "decreasing"
      else "stable" := rfl

theorem lookup_none_iff (k : String) (l : Metrics) :
    l.lookup k = none ↔ ∀ p ∈ l, (k == p.1) = false := by
  induction l with
  | nil => simp [List.lookup]
  | cons q t ih =>
    cases q with
    | mk k2 v =>
      by_cases hq : (k == k2) = true
      · constructor
        · intro h
          simp [List.lookup, hq] at h
        · intro hall
          have h2 := hall (k2, v) (by simp)
          rw [hq] at h2
          cases h2
      · simp only [Bool.not_eq_true] at hq
        constructor
        · intro h p hp
          rcases List.mem_cons.mp hp with rfl | hp2
          · exact hq
          · refine (ih.mp ?_) p hp2
            simpa [List.lookup, hq] using h
        · intro hall
          simp only [List.lookup, hq]
          exact ih.mpr fun p hp => hall p (List.mem_cons_of_mem _ hp)

theorem append_beq_false {k a b : String} (h : a ≠ b) : (k ++ a == k ++ b) = false := by
  apply beq_eq_false_iff_ne.mpr
  intro he
  apply h
  have hd : (k ++ a).data = (k ++ b).data := congrArg String.data he
  rw [String.data_append, String.data_append] at hd
  exact String.ext (List.append_cancel_left hd)

theorem lookup_blocks (evs : List EvalUnit) (key sfx : String) :
    ∀ ks : List String, key ∈ ks →
      (∀ kk ∈ ks, kk ≠ key →
        (key ++ sfx == kk ++ "_avg") = false ∧ (key ++ sfx == kk ++ "_min") = false ∧
        (key ++ sfx == kk ++ "_max") = false ∧ (key ++ sfx == kk ++ "_trend") = false) →
      (ks.flatMap fun kk => keyBlock kk evs).lookup (key ++ sfx) =
        (keyBlock key evs).lookup (key ++ sfx) := by
  intro ks
  induction ks with
  | nil => intro hmem; cases hmem
  | cons kk ks ih =>
    intro hmem hcross
    rw [List.flatMap_cons, lookup_append]
    by_cases hk : key = kk
    · subst hk
      cases hl : (keyBlock key evs).lookup (key ++ sfx) with
      | some v => rfl
      | none =>
        simp only [Option.none_or]
        apply lookup_eq_none_of_forall
        intro p hp
        simp only [List.mem_flatMap] at hp
        obtain ⟨kj, hkj, hpj⟩ := hp
        by_cases hkjk : kj = key
        · subst hkjk
          exact (lookup_none_iff _ _).mp hl p hpj
        · have hc := hcross kj (by simp [hkj]) hkjk
          rcases keyBlock_keys kj evs p hpj with h | h | h | h <;>
            simp [h, hc.1, hc.2.1, hc.2.2.1, hc.2.2.2]
    · have hc := hcross kk (by simp) fun he => hk he.symm
      have h0 : (keyBlock kk evs).lookup (key ++ sfx) = none := by
        apply lookup_eq_none_of_forall
        intro p hp
        rcases keyBlock_keys kk evs p hp with h | h | h | h <;>
          simp [h, hc.1, hc.2.1, hc.2.2.1, hc.2.2.2]
      rw [h0, Option.none_or]
      refine ih ?_ ?_
      · rcases List.mem_cons.mp hmem with hmem2 | hmem2
        · exact absurd hmem2 hk
        · exact hmem2
      · intro kj hkj hne
        exact hcross kj (List.mem_cons_of_mem _ hkj) hne

theorem min?_eq_foldl (vs : List ℚ) (h : vs ≠ []) :
    vs.min? = some (vs.foldl min vs.headI) := by
  cases vs with
  | nil => cases h rfl
  | cons a t => simp [List.min?, List.headI, List.foldl_cons, min_self]

theorem max?_eq_foldl (vs : List ℚ) (h : vs ≠ []) :
    vs.max? = some (vs.foldl max vs.headI) := by
  cases vs with
  | nil => cases h rfl
  | cons a t => simp [List.max?, List.headI, List.foldl_cons, max_self]

theorem keyBlock_lookup_spec (key : String) (evs : List EvalUnit)
    (hne : metricValues key evs ≠ []) :
    (keyBlock key evs).lookup (key ++ "_avg") =
      some (MVal.num (pyRound1 ((metricValues key evs).sum /
        ((metricValues key evs).length : ℚ)))) ∧
    (keyBlock key evs).lookup (key ++ "_min") =
      some (MVal.num ((metricValues key evs).foldl min (metricValues key evs).headI)) ∧
    (keyBlock key evs).lookup (key ++ "_max") =
      some (MVal.num ((metricValues key evs).foldl max (metricValues key evs).headI)) ∧
    (2 ≤ (metricValues key evs).length →
      (keyBlock key evs).lookup (key ++ "_trend") =
        some (MVal.str (trendOf (metricValues key evs)))) := by
  have hne2 : (metricValues key evs).isEmpty = false := by
    simpa [List.isEmpty_iff] using hne
  have e1 : (key ++ "_min" == key ++ "_avg") = false := append_beq_false (by decide)
  have e2 : (key ++ "_max" == key ++ "_avg") = false := append_beq_false (by decide)
  have e3 : (key ++ "_max" == key ++ "_min") = false := append_beq_false (by decide)
  have e4 : (key ++ "_trend" == key ++ "_avg") = false := append_beq_false (by decide)
  have e5 : (key ++ "_trend" == key ++ "_min") = false := append_beq_false (by decide)
  have e6 : (key ++ "_trend" == key ++ "_max") = false := append_beq_false (by decide)
  simp only [keyBlock, hne2, Bool.false_eq_true, if_false]
  refine ⟨?_, ?_, ?_, ?_⟩
  · simp [List.lookup]
  · simp [List.lookup, e1]
  · simp [List.lookup, e2, e3]
  · intro h2
    rw [lookup_append]
    have hleft : (([(key ++ "_avg", MVal.num (pyRound1 ((metricValues key evs).sum /
        ((metricValues key evs).length : ℚ)))),
        (key ++ "_min", MVal.num ((metricValues key evs).foldl min
          (metricValues key evs).headI)),
        (key ++ "_max", MVal.num ((metricValues key evs).foldl max
          (metricValues key evs).headI))] : Metrics).lookup (key ++ "_trend")) = none := by
      simp [List.lookup, e4, e5, e6]
    rw [hleft, Option.none_or, if_pos h2]
    simp [List.lookup]

theorem extract_key_spec (r : String) (evs : List EvalUnit) (key : String)
    (hkey : key ∈ metricKeys)
    (hb : ∀ sfx ∈ (["_avg", "_min", "_max", "_trend"] : List String),
      (key ++ sfx == "session_count") = false ∧
      (key ++ sfx == "comparison_generated") = false ∧
      ∀ kk ∈ metricKeys, kk ≠ key →
        (key ++ sfx == kk ++ "_avg") = false ∧ (key ++ sfx == kk ++ "_min") = false ∧
        (key ++ sfx == kk ++ "_max") = false ∧ (key ++ sfx == kk ++ "_trend") = false) :
    ∀ sfx ∈ (["_avg", "_min", "_max", "_trend"] : List String),
      (extract_comparison_metrics r evs).lookup (key ++ sfx) =
        (keyBlock key evs).lookup (key ++ sfx) := by
  intro sfx hsfx
  obtain ⟨hb1, hb2, hcross⟩ := hb sfx hsfx
  unfold extract_comparison_metrics
  rw [lookup_append]
  have h1 : (([("session_count", MVal.num (evs.length : ℚ)),
      ("comparison_generated", MVal.boolv true)] : Metrics).lookup (key ++ sfx)) = none := by
    simp [List.lookup, hb1, hb2]
  rw [h1, Option.none_or]
  exact lookup_blocks evs key sfx metricKeys hkey hcross

/-- C5: for each of the five metric keys, the aggregates are computed over
the ordered list of values present among the evaluations — with at least
one value the result binds `<key>_avg` (mean rounded at one decimal, Python
banker's rounding), `<key>_min` and `<key>_max`; with at least two values
it binds `<key>_trend`, which (for the nonnegative values the parser
produces) is `"increasing"` exactly when the second-half mean exceeds the
first-half mean times `1.05` (= 21/20), `"decreasing"` exactly when it is
below the first-half mean times `0.95` (= 19/20), and `"stable"` otherwise;
values `[142.5, 155.0]` yield `wpm_trend = "increasing"` and
`[150.0, 151.0]` yield `"stable"`. -/
theorem C5_aggregate_metrics :
    (∀ (r : String) (evs : List EvalUnit) (key : String), key ∈ metricKeys →
      (metricValues key evs ≠ [] →
        (extract_comparison_metrics r evs).lookup (key ++ "_avg") =
          some (MVal.num (pyRound1 ((metricValues key evs).sum /
            ((metricValues key evs).length : ℚ)))) ∧
        (∃ mn, (metricValues key evs).min? = some mn ∧
          (extract_comparison_metrics r evs).lookup (key ++ "_min") =
            some (MVal.num mn)) ∧
        (∃ mx, (metricValues key evs).max? = some mx ∧
          (extract_comparison_metrics r evs).lookup (key ++ "_max") =
            some (MVal.num mx))) ∧
      (2 ≤ (metricValues key evs).length →
        (extract_comparison_metrics r evs).lookup (key ++ "_trend") =
          some (MVal.str (trendOf (metricValues key evs))))) ∧
    (∀ vs : List ℚ, (∀ v ∈ vs, 0 ≤ v) →
      (trendOf vs = "increasing" ↔
        secondHalfMean vs > firstHalfMean vs * (21 / 20)) ∧
      (trendOf vs = "decreasing" ↔
        secondHalfMean vs < firstHalfMean vs * (19 / 20)) ∧
      (trendOf vs = "stable" ↔
        ¬ secondHalfMean vs > firstHalfMean vs * (21 / 20) ∧
        ¬ secondHalfMean vs < firstHalfMean vs * (19 / 20))) ∧
    (extract_comparison_metrics "# R" evsInc).lookup ("wpm" ++ "_trend") =
      some (MVal.str "increasing") ∧
    (extract_comparison_metrics "# R" evsStable).lookup ("wpm" ++ "_trend") =
      some (MVal.str "stable") := by
  have main : ∀ (r : String) (evs : List EvalUnit) (key : String), key ∈ metricKeys →
      (metricValues key evs ≠ [] →
        (extract_comparison_metrics r evs).lookup (key ++ "_avg") =
          some (MVal.num (pyRound1 ((metricValues key evs).sum /
            ((metricValues key evs).length : ℚ)))) ∧
        (∃ mn, (metricValues key evs).min? = some mn ∧
          (extract_comparison_metrics r evs).lookup (key ++ "_min") =
            some (MVal.num mn)) ∧
        (∃ mx, (metricValues key evs).max? = some mx ∧
          (extract_comparison_metrics r evs).lookup (key ++ "_max") =
            some (MVal.num mx))) ∧
      (2 ≤ (metricValues key evs).length →
        (extract_comparison_metrics r evs).lookup (key ++ "_trend") =
          some (MVal.str (trendOf (metricValues key evs)))) := by
    have per_key : ∀ (key : String), key ∈ metricKeys →
        (∀ sfx ∈ (["_avg", "_min", "_max", "_trend"] : List String),
          (key ++ sfx == "session_count") = false ∧
          (key ++ sfx == "comparison_generated") = false ∧
          ∀ kk ∈ metricKeys, kk ≠ key →
            (key ++ sfx == kk ++ "_avg") = false ∧ (key ++ sfx == kk ++ "_min") = false ∧
            (key ++ sfx == kk ++ "_max") = false ∧
            (key ++ sfx == kk ++ "_trend") = false) →
        ∀ (r : String) (evs : List EvalUnit),
        (metricValues key evs ≠ [] →
          (extract_comparison_metrics r evs).lookup (key ++ "_avg") =
            some (MVal.num (pyRound1 ((metricValues key evs).sum /
              ((metricValues key evs).length : ℚ)))) ∧
          (∃ mn, (metricValues key evs).min? = some mn ∧
            (extract_comparison_metrics r evs).lookup (key ++ "_min") =
              some (MVal.num mn)) ∧
          (∃ mx, (metricValues key evs).max? = some mx ∧
            (extract_comparison_metrics r evs).lookup (key ++ "_max") =
              some (MVal.num mx))) ∧
        (2 ≤ (metricValues key evs).length →
          (extract_comparison_metrics r evs).lookup (key ++ "_trend") =
            some (MVal.str (trendOf (metricValues key evs)))) := by
      intro key hkey hball r evs
      have hspec := extract_key_spec r evs key hkey hball
      refine ⟨fun hne => ?_, fun h2 => ?_⟩
      · have hb := keyBlock_lookup_spec key evs hne
        exact ⟨by rw [hspec "_avg" (by decide)]; exact hb.1,
          ⟨_, min?_eq_foldl _ hne, by rw [hspec "_min" (by decide)]; exact hb.2.1⟩,
          ⟨_, max?_eq_foldl _ hne, by rw [hspec "_max" (by decide)]; exact hb.2.2.1⟩⟩
      · have hne : metricValues key evs ≠ [] := by
          intro h0
          rw [h0] at h2
          simp at h2
        have hb := keyBlock_lookup_spec key evs hne
        rw [hspec "_trend" (by decide)]
        exact hb.2.2.2 h2
    intro r evs key hkey
    have hkey5 : key = "wpm" ∨ key = "pauses_per_10min" ∨ key = "filler_words_per_min" ∨
        key = "questions_per_5min" ∨ key = "tangent_percentage" := by
      simpa [metricKeys] using hkey
    rcases hkey5 with rfl | rfl | rfl | rfl | rfl <;>
      (refine per_key _ ?_ ?_ r evs <;> decide)
  refine ⟨main, ?_, ?_, ?_⟩
  · intro vs hpos
    have hfh : 0 ≤ firstHalfMean vs := by
      apply div_nonneg
      · exact List.sum_nonneg fun v hv => hpos v (List.take_subset _ _ hv)
      · positivity
    rw [trendOf_eq]
    by_cases c1 : secondHalfMean vs > firstHalfMean vs * (21 / 20)
    · rw [if_pos c1]
      refine ⟨iff_of_true rfl c1, iff_of_false (by decide) ?_, iff_of_false (by decide) ?_⟩
      · intro c2
        have : firstHalfMean vs < 0 := by linarith
        linarith
      · rintro ⟨h1, _⟩
        exact h1 c1
    · by_cases c2 : secondHalfMean vs < firstHalfMean vs * (19 / 20)
      · rw [if_neg c1, if_pos c2]
        refine ⟨iff_of_false (by decide) c1, iff_of_true rfl c2,
          iff_of_false (by decide) ?_⟩
        rintro ⟨_, h2⟩
        exact h2 c2
      · rw [if_neg c1, if_neg c2]
        exact ⟨iff_of_false (by decide) c1, iff_of_false (by decide) c2,
          iff_of_true rfl ⟨c1, c2⟩⟩
  · have h := (main "# R" evsInc "wpm" (by decide)).2 (by decide)
    rw [h, show metricValues "wpm" evsInc = [(285 : ℚ) / 2, 155] from rfl]
    norm_num [trendOf, List.take, List.drop]
  · have h := (main "# R" evsStable "wpm" (by decide)).2 (by decide)
    rw [h, show metricValues "wpm" evsStable = [(150 : ℚ), 151] from rfl]
    norm_num [trendOf, List.take, List.drop]

/-- Witness for C5: the aggregate clauses applied to the concrete two-value
fixture. -/
theorem C5_witness :
    (extract_comparison_metrics "# R" evsInc).lookup ("wpm" ++ "_avg") =
      some (MVal.num (pyRound1 ((metricValues "wpm" evsInc).sum /
        ((metricValues "wpm" evsInc).length : ℚ)))) ∧
    (∃ mn, (metricValues "wpm" evsInc).min? = some mn ∧
      (extract_comparison_metrics "# R" evsInc).lookup ("wpm" ++ "_min") =
        some (MVal.num mn)) ∧
    (∃ mx, (metricValues "wpm" evsInc).max? = some mx ∧
      (extract_comparison_metrics "# R" evsInc).lookup ("wpm" ++ "_max") =
        some (MVal.num mx)) :=
  (C5_aggregate_metrics.1 "# R" evsInc "wpm" (by decide)).1 (by decide)
